import Mathlib

/-!
Shallow embedding of the cold-email generation pipeline (`core.py` and
`interface.py`): hashing/staleness checking, chunking, the FAISS wrapper,
the extraction and generation stages, the orchestrator
`generate_cold_email`, input parsing, and the UI boundary `main`.

External services (pandas, FAISS similarity search, the Azure chat and
embedding endpoints) are modelled as function parameters; a fallible call
is a value of `Except String α`, an exception being `Except.error msg`.
Python strings are Lean `String`s; `.strip()` is modelled by `pystrip`
and `.lower()` by `String.toLower`.
-/

/-- Model of Python `str.strip()`: drop whitespace from both ends.
Defined over the character list so that idempotence is provable. -/
def pystrip (s : String) : String :=
  String.mk (List.rdropWhile Char.isWhitespace
    (s.data.dropWhile Char.isWhitespace))

/-- A single-quote character, used in the Dutch user-facing messages. -/
def squote : String := String.singleton (Char.ofNat 39)

/-- Model of Python `str.lower()`: lowercase every character. -/
def pylower (s : String) : String := String.mk (s.data.map Char.toLower)

/-- Helper for `pysplit`: walk the characters, cutting at every
separator; `acc` holds the current piece reversed. -/
def pysplitAux (sep : Char) : List Char → List Char → List String
  | [], acc => [String.mk acc.reverse]
  | c :: cs, acc =>
    if c = sep then String.mk acc.reverse :: pysplitAux sep cs []
    else pysplitAux sep cs (c :: acc)

/-- Model of Python `str.split(sep)` for a one-character separator:
split at every occurrence, keeping empty pieces (`"".split` gives
`[""]`). -/
def pysplit (sep : Char) (s : String) : List String := pysplitAux sep s.data []

/-!
## MD5 (`hashlib.md5(...).hexdigest()`)

`get_excel_hash` opens the spreadsheet file, reads its raw bytes and
returns the MD5 hex digest.  The file contents are modelled as the list
of byte values; MD5 itself is embedded below (32-bit words as `Nat`
taken modulo `2 ^ 32`).
-/

def u32 (n : Nat) : Nat := n % 4294967296

def u32not (x : Nat) : Nat := Nat.xor x 4294967295

def rotl32 (x s : Nat) : Nat := u32 (x <<< s) ||| (x >>> (32 - s))

/-- The 64 MD5 round constants `K[i] = floor(2^32 * abs(sin(i+1)))`. -/
def mdK : List Nat :=
  [0xd76aa478, 0xe8c7b756, 0x242070db, 0xc1bdceee,
   0xf57c0faf, 0x4787c62a, 0xa8304613, 0xfd469501,
   0x698098d8, 0x8b44f7af, 0xffff5bb1, 0x895cd7be,
   0x6b901122, 0xfd987193, 0xa679438e, 0x49b40821,
   0xf61e2562, 0xc040b340, 0x265e5a51, 0xe9b6c7aa,
   0xd62f105d, 0x02441453, 0xd8a1e681, 0xe7d3fbc8,
   0x21e1cde6, 0xc33707d6, 0xf4d50d87, 0x455a14ed,
   0xa9e3e905, 0xfcefa3f8, 0x676f02d9, 0x8d2a4c8a,
   0xfffa3942, 0x8771f681, 0x6d9d6122, 0xfde5380c,
   0xa4beea44, 0x4bdecfa9, 0xf6bb4b60, 0xbebfbc70,
   0x289b7ec6, 0xeaa127fa, 0xd4ef3085, 0x04881d05,
   0xd9d4d039, 0xe6db99e5, 0x1fa27cf8, 0xc4ac5665,
   0xf4292244, 0x432aff97, 0xab9423a7, 0xfc93a039,
   0x655b59c3, 0x8f0ccc92, 0xffeff47d, 0x85845dd1,
   0x6fa87e4f, 0xfe2ce6e0, 0xa3014314, 0x4e0811a1,
   0xf7537e82, 0xbd3af235, 0x2ad7d2bb, 0xeb86d391]

/-- The 64 MD5 per-round left-rotation amounts. -/
def mdS : List Nat :=
  [7, 12, 17, 22, 7, 12, 17, 22, 7, 12, 17, 22, 7, 12, 17, 22,
   5, 9, 14, 20, 5, 9, 14, 20, 5, 9, 14, 20, 5, 9, 14, 20,
   4, 11, 16, 23, 4, 11, 16, 23, 4, 11, 16, 23, 4, 11, 16, 23,
   6, 10, 15, 21, 6, 10, 15, 21, 6, 10, 15, 21, 6, 10, 15, 21]

/-- MD5 padding: a `0x80` byte, zeros to 56 mod 64, then the original
bit length as eight little-endian bytes. -/
def md5pad (msg : List Nat) : List Nat :=
  let padZeros := (119 - msg.length % 64) % 64
  let bitLen := (msg.length * 8) % 18446744073709551616
  msg ++ 128 :: List.replicate padZeros 0 ++
    (List.range 8).map (fun i => (bitLen >>> (8 * i)) % 256)

/-- Split a byte list into 64-byte blocks. -/
def toBlocks (l : List Nat) : List (List Nat) :=
  if hne : l = [] then []
  else l.take 64 :: toBlocks (l.drop 64)
termination_by l.length
decreasing_by
  simp only [List.length_drop]
  exact Nat.sub_lt (List.length_pos.mpr hne) (by decide)

/-- Word `j` of a 64-byte block, little-endian. -/
def blockWords (b : List Nat) (j : Nat) : Nat :=
  b.getD (4 * j) 0 + 256 * b.getD (4 * j + 1) 0 +
    65536 * b.getD (4 * j + 2) 0 + 16777216 * b.getD (4 * j + 3) 0

/-- One MD5 round on state `(a, b, c, d)`. -/
def md5round (M : Nat → Nat) (st : Nat × Nat × Nat × Nat) (i : Nat) :
    Nat × Nat × Nat × Nat :=
  let a := st.1
  let b := st.2.1
  let c := st.2.2.1
  let d := st.2.2.2
  let fg : Nat × Nat :=
    if i < 16 then ((b &&& c) ||| (u32not b &&& d), i)
    else if i < 32 then ((d &&& b) ||| (u32not d &&& c), (5 * i + 1) % 16)
    else if i < 48 then (Nat.xor (Nat.xor b c) d, (3 * i + 5) % 16)
    else (Nat.xor c (b ||| u32not d), (7 * i) % 16)
  let f := u32 (fg.1 + a + mdK.getD i 0 + M fg.2)
  (d, u32 (b + rotl32 f (mdS.getD i 0)), b, c)

/-- Process one 64-byte block: 64 rounds then add into the state. -/
def md5processBlock (st : Nat × Nat × Nat × Nat) (block : List Nat) :
    Nat × Nat × Nat × Nat :=
  let r := (List.range 64).foldl (md5round (blockWords block)) st
  (u32 (st.1 + r.1), u32 (st.2.1 + r.2.1),
   u32 (st.2.2.1 + r.2.2.1), u32 (st.2.2.2 + r.2.2.2))

/-- A 32-bit word as four little-endian bytes. -/
def wordLEbytes (w : Nat) : List Nat :=
  [w % 256, w / 256 % 256, w / 65536 % 256, w / 16777216 % 256]

/-- The 16-byte MD5 digest of a byte list. -/
def md5digestBytes (msg : List Nat) : List Nat :=
  let st := (toBlocks (md5pad msg)).foldl md5processBlock
    (1732584193, 4023233417, 2562383102, 271733878)
  wordLEbytes st.1 ++ wordLEbytes st.2.1 ++
    wordLEbytes st.2.2.1 ++ wordLEbytes st.2.2.2

def hexDigit (n : Nat) : Char :=
  if n < 10 then Char.ofNat (48 + n) else Char.ofNat (87 + n)

def byteHexChars (b : Nat) : List Char :=
  [hexDigit (b / 16 % 16), hexDigit (b % 16)]

/-- Lowercase hex rendering of a byte list (Python `hexdigest`). -/
def bytesToHex (bs : List Nat) : String :=
  String.mk (bs.flatMap byteHexChars)

/-- `get_excel_hash(filename)`: the MD5 hex digest of the file's raw
bytes (`hashlib.md5(f.read()).hexdigest()`); the file is modelled by
its list of byte values. -/
def get_excel_hash (fileBytes : List Nat) : String :=
  bytesToHex (md5digestBytes fileBytes)

/-!
## Data model

`langchain` documents carry a text payload and a metadata dictionary;
the pipeline only reads the `title` and `url` keys (absent keys are
`Option.none`).  Chat models receive a list of system/human messages
and either answer with a string or raise.
-/

inductive Message where
  | system (content : String)
  | human (content : String)
deriving DecidableEq, Repr

/-- A similarity-search result document (`doc.page_content`,
`doc.metadata.get("title")`, `doc.metadata.get("url")`). -/
structure Doc where
  page_content : String
  title : Option String
  url : Option String
deriving DecidableEq, Repr

/-- One entry of `relevant_info_list` in `extract_relevant_info`. -/
structure FactRecord where
  title : String
  url : String
  extracted_facts : String
deriving DecidableEq, Repr

/-- A vectorstore handle, reduced to the one operation the pipeline
uses: `similarity_search(query, k)`. -/
def VS : Type := String → Nat → List Doc

/-- A chat model: `invoke(messages).content`, which can raise; the
error value carries the exception message. -/
def ChatModel : Type := List Message → Except String String

/-!
## Extraction stage (`core.py` lines 29-67)
-/

/-- `has_relevant_facts`: the extraction output is meaningful when its
stripped form is none of the sentinels `"[]"`, `'""'` and `""`. -/
def has_relevant_facts (extracted : String) : Bool :=
  !(["[]", "\"\"", ""].contains (pystrip extracted))

/-- The fixed system instruction of the extraction stage. -/
def extractor_system_prompt : String :=
  "You are a challenge information extractor. [...]"

/-- The fixed system instruction of the generation stage (elided to
`"[...]"` in the source). -/
def email_system_prompt : String := "[...]"

/-- The two-message prompt sent per document by
`extract_relevant_info`. -/
def extraction_messages (question : String) (d : Doc) : List Message :=
  [Message.system extractor_system_prompt,
   Message.human ("Question: " ++ question ++ "\n\nArticle:\n" ++ d.page_content)]

/-- The loop body of `extract_relevant_info`: one chat call per
document, a failing call is caught and the document skipped
(`continue`); a successful response is stripped and recorded together
with the document's metadata. -/
def extraction_records (docs : List Doc) (question : String)
    (chat_model : ChatModel) : List FactRecord :=
  match docs with
  | [] => []
  | d :: rest =>
    match chat_model (extraction_messages question d) with
    | Except.error _ => extraction_records rest question chat_model
    | Except.ok r =>
      { title := d.title.getD "No title", url := d.url.getD "No URL",
        extracted_facts := pystrip r } :: extraction_records rest question chat_model

/-- `extract_relevant_info(docs, question, chat_model)`: returns
`used_sources` (the records whose facts pass `has_relevant_facts`) and
`combined_text` (their facts joined by newlines).  The third component
instruments the chat invocations issued, one per document, failing
calls included; the `debug_mode` display is omitted (it does not affect
the returned values). -/
def extract_relevant_info (docs : List Doc) (question : String)
    (chat_model : ChatModel) :
    List FactRecord × String × List (List Message) :=
  let used_sources := (extraction_records docs question chat_model).filter
    (fun info => has_relevant_facts info.extracted_facts)
  (used_sources,
   String.intercalate "\n" (used_sources.map FactRecord.extracted_facts),
   docs.map (extraction_messages question))

/-!
## Chunker (`core.py` lines 70-77)
-/

/-- `get_text_chunks(texts_with_metadata)`: split every row text with
the `RecursiveCharacterTextSplitter` (an external library, modelled by
the `split` parameter) and pair every resulting chunk with its row's
metadata.  Returns the parallel `chunks` and `metadatas` lists. -/
def get_text_chunks {μ : Type} (split : String → List String)
    (texts_with_metadata : List (String × μ)) : List String × List μ :=
  match texts_with_metadata with
  | [] => ([], [])
  | (text, metadata) :: rest =>
    let tail := get_text_chunks split rest
    (split text ++ tail.1, (split text).map (fun _ => metadata) ++ tail.2)

/-!
## Generation stage and orchestrator (`core.py` lines 119-139)
-/

/-- The terminal `NoExactMatch` message, naming the challenge. -/
def no_match_message (challenge_name : String) : String :=
  "Geen exacte match gevonden voor " ++ squote ++ challenge_name ++ squote ++ "."

def no_facts_message : String :=
  "Geen relevante informatie gevonden voor deze uitdaging."

/-- The exact-title filter of step 2:
`doc.metadata.get("title", "").strip().lower() ==
challenge_name.strip().lower()`. -/
def title_matches (challenge_name : String) (d : Doc) : Bool :=
  pylower (pystrip (d.title.getD "")) == pylower (pystrip challenge_name)

/-- The two-message prompt of the generation stage. -/
def email_prompt (combined_text company_name : String) : List Message :=
  [Message.system email_system_prompt,
   Message.human ("Challenge info:\n" ++ combined_text ++
     "\n\nCompany name: " ++ company_name)]

/-- Recognizes a generation-stage invocation in the instrumented call
list by its distinguishing system prompt. -/
def is_generation_call (m : List Message) : Bool :=
  m.head? == some (Message.system email_system_prompt)

/-- `generate_cold_email(challenge_name, company_name, vectorstore,
chat_model)`: similarity search with `k = 6`, exact-title filter,
extraction, then one generation call whose stripped answer is the
email.  The first component is the returned string (or the propagated
exception of the generation call); the second instruments every chat
invocation issued. -/
def generate_cold_email (challenge_name company_name : String) (vs : VS)
    (chat_model : ChatModel) : Except String String × List (List Message) :=
  let docs := vs challenge_name 6
  let filtered_docs := docs.filter (title_matches challenge_name)
  if filtered_docs.isEmpty then
    (Except.ok (no_match_message challenge_name), [])
  else
    let er := extract_relevant_info filtered_docs challenge_name chat_model
    let combined_text := er.2.1
    if pystrip combined_text == "" then
      (Except.ok no_facts_message, er.2.2)
    else
      match chat_model (email_prompt combined_text company_name) with
      | Except.error e =>
        (Except.error e, er.2.2 ++ [email_prompt combined_text company_name])
      | Except.ok email =>
        (Except.ok (pystrip email), er.2.2 ++ [email_prompt combined_text company_name])

/-!
## Staleness checking and index load-or-rebuild (`core.py` 142-178)
-/

/-- Modelled from the spec (§4.1): `isStale(currentFingerprint,
storedFingerprint, indexExists)` is true if `indexExists` is false OR
`storedFingerprint` is absent/different from `currentFingerprint`.
The source inlines this condition in `load_or_create_vectorstore`;
this definition follows the spec's wording for comparison. -/
def isStale (currentFingerprint : String) (storedFingerprint : Option String)
    (indexExists : Bool) : Bool :=
  !indexExists ||
    (match storedFingerprint with
     | none => true
     | some s => s != currentFingerprint)

/-- On-disk state shared between runs: whether
`<EMBEDDINGS_DIRECTORY>/<VECTORSTORE_NAME>/index.faiss` exists, and the
stripped contents of the sibling `hash.txt` (`none` when absent). -/
structure FsState where
  indexExists : Bool
  storedHash : Option String
deriving DecidableEq, Repr

/-- The metadata attached to each spreadsheet row
(`core.py` lines 162-166). -/
structure RowMetadata where
  title : String
  url : String
  source : String
deriving DecidableEq, Repr

/-- A spreadsheet row after `fillna("")`, as ordered column/value
pairs; `" | ".join(f"{col}: {row[col]}" for col in df.columns)`. -/
def flatten_row (row : List (String × String)) : String :=
  String.intercalate " | " (row.map (fun cv => cv.1 ++ ": " ++ cv.2))

/-- The metadata of one row: `row.get("Challenge Name", "No title")`,
`row.get("URL", "No URL")`, fixed source tag. -/
def row_metadata (row : List (String × String)) : RowMetadata :=
  { title := (row.lookup "Challenge Name").getD "No title",
    url := (row.lookup "URL").getD "No URL",
    source := "MKB-challenge-data" }

/-- Result of `load_or_create_vectorstore`: the vectorstore (or the
propagated exception), the filesystem state after the run, and an
instrumentation flag recording whether the rebuild branch ran. -/
structure LoadResult where
  vs : Except String VS
  fs : FsState
  rebuilt : Bool

/-- The rebuild branch of `load_or_create_vectorstore` (lines
158-175): read and flatten the spreadsheet rows, chunk them, build and
persist the index, and only then write `current_hash` to `hash.txt`.
An exception from `read_excel` or `create_vectorstore` propagates
before the hash write, leaving the filesystem state unchanged. -/
def rebuild_vectorstore (fs : FsState) (current_hash : String)
    (read_excel : Except String (List (List (String × String))))
    (split : String → List String)
    (create_vectorstore : List String → List RowMetadata → Except String VS) :
    LoadResult :=
  match read_excel with
  | Except.error e => ⟨Except.error e, fs, true⟩
  | Except.ok rows =>
    let cm := get_text_chunks split
      (rows.map (fun row => (flatten_row row, row_metadata row)))
    match create_vectorstore cm.1 cm.2 with
    | Except.error e => ⟨Except.error e, fs, true⟩
    | Except.ok vectorstore =>
      ⟨Except.ok vectorstore, ⟨true, some current_hash⟩, true⟩

/-- `load_or_create_vectorstore(excel_path)`: hash the spreadsheet
bytes, rebuild when the index artifact is missing or the stored hash
differs, else load.  `read_excel` models `pd.read_excel(...).fillna("")`
(returning the rows), `create_vectorstore` models embedding plus
`FAISS.from_texts` and `save_local`, `load_vectorstore` models
`FAISS.load_local`; each can raise. -/
def load_or_create_vectorstore (fs : FsState) (excelBytes : List Nat)
    (read_excel : Except String (List (List (String × String))))
    (split : String → List String)
    (create_vectorstore : List String → List RowMetadata → Except String VS)
    (load_vectorstore : Except String VS) : LoadResult :=
  let current_hash := get_excel_hash excelBytes
  if !fs.indexExists || fs.storedHash != some current_hash then
    rebuild_vectorstore fs current_hash read_excel split create_vectorstore
  else
    ⟨load_vectorstore, fs, false⟩

/-!
## Input parsing and the UI boundary (`core.py` 181-185,
`interface.py` 41-71)
-/

/-- `parse_input(user_input)`: split on every `|`; exactly two parts
yield the stripped pair, any other count yields `(None, None)`. -/
def parse_input (user_input : String) : Option String × Option String :=
  match pysplit (Char.ofNat 124) user_input with
  | [a, b] => (some (pystrip a), some (pystrip b))
  | _ => (none, none)

/-- Outcome rendered by the Streamlit page: `st.error(...)` or the
generated email shown via `st.markdown`. -/
inductive UiOutcome where
  | errorMsg (message : String)
  | emailShown (email : String)
deriving DecidableEq, Repr

def incorrect_format_message : String :=
  "Incorrect format. Use: " ++ squote ++ "Challenge Name | Company Name" ++ squote

def loading_error_message (e : String) : String :=
  "Error loading resources: " ++ e

def generation_error_message (e : String) : String :=
  "Email generation failed: " ++ e

/-- Python falsiness of an optional string (`if not challenge_name`):
`None` and the empty string are falsy. -/
def py_falsy : Option String → Bool
  | none => true
  | some s => s == ""

/-- The button-click path of `interface.main`: parse and validate the
input, load or rebuild the vectorstore inside the first `try` (errors
become the loading `st.error` message), then generate inside the second
`try` (errors become the generation `st.error` message).
`initialize_chat_models` merely constructs a client and is assumed not
to raise; the `splitlines` re-rendering of the shown email is not
modelled. -/
def main_run (user_input : String) (fs : FsState) (excelBytes : List Nat)
    (read_excel : Except String (List (List (String × String))))
    (split : String → List String)
    (create_vectorstore : List String → List RowMetadata → Except String VS)
    (load_vectorstore : Except String VS)
    (chat_model : ChatModel) : UiOutcome × FsState :=
  let parsed := parse_input user_input
  if py_falsy parsed.1 || py_falsy parsed.2 then
    (UiOutcome.errorMsg incorrect_format_message, fs)
  else
    let challenge_name := parsed.1.getD ""
    let company_name := parsed.2.getD ""
    let lr := load_or_create_vectorstore fs excelBytes read_excel split
      create_vectorstore load_vectorstore
    match lr.vs with
    | Except.error e => (UiOutcome.errorMsg (loading_error_message e), lr.fs)
    | Except.ok vectorstore =>
      match (generate_cold_email challenge_name company_name vectorstore
          chat_model).1 with
      | Except.error e => (UiOutcome.errorMsg (generation_error_message e), lr.fs)
      | Except.ok email => (UiOutcome.emailShown email, lr.fs)

/-!
## Concrete fixtures (used by the witness theorems)
-/

def demo_doc : Doc := ⟨"text", some "X", none⟩

def demo_vs : VS := fun _ _ => [demo_doc]

/-- A chat model that answers extraction prompts with `"facts"` and
raises on any other prompt (in particular on the generation prompt). -/
def gen_fail_chat : ChatModel := fun m =>
  match m with
  | Message.system s :: _ =>
    if s == extractor_system_prompt then Except.ok "facts"
    else Except.error "boom"
  | _ => Except.error "boom"

/-!
## Helper lemmas
-/

theorem strip_list_idem (p : Char → Bool) (l : List Char) :
    List.rdropWhile p (List.dropWhile p (List.rdropWhile p (List.dropWhile p l))) =
      List.rdropWhile p (List.dropWhile p l) := by
  have hdrop : List.dropWhile p (List.rdropWhile p (List.dropWhile p l)) =
      List.rdropWhile p (List.dropWhile p l) := by
    obtain ⟨t, ht⟩ := List.rdropWhile_prefix p (List.dropWhile p l)
    cases hre : List.rdropWhile p (List.dropWhile p l) with
    | nil => simp
    | cons a as =>
      have hm : List.dropWhile p l = a :: (as ++ t) := by
        rw [← ht, hre]; simp
      have hpa : p a = false := by
        have h := List.head?_dropWhile_not p l
        rw [hm] at h
        simpa using h
      rw [List.dropWhile_cons_of_neg (by simp [hpa])]
  rw [hdrop, List.rdropWhile_idempotent]

theorem pystrip_idem (s : String) : pystrip (pystrip s) = pystrip s := by
  unfold pystrip
  exact congrArg String.mk (strip_list_idem Char.isWhitespace s.data)

theorem extraction_records_append (docs1 docs2 : List Doc) (question : String)
    (chat_model : ChatModel) :
    extraction_records (docs1 ++ docs2) question chat_model =
      extraction_records docs1 question chat_model ++
        extraction_records docs2 question chat_model := by
  induction docs1 with
  | nil => rfl
  | cons d rest ih =>
    simp only [List.cons_append, extraction_records]
    cases chat_model (extraction_messages question d) <;> simp [ih]

theorem extraction_records_ok (docs : List Doc) (question : String)
    (f : List Message → String) :
    extraction_records docs question (fun m => Except.ok (f m)) =
      docs.map (fun d =>
        ⟨d.title.getD "No title", d.url.getD "No URL",
          pystrip (f (extraction_messages question d))⟩) := by
  induction docs with
  | nil => rfl
  | cons d rest ih => simp [extraction_records, ih]

theorem has_relevant_facts_pystrip (x : String) :
    has_relevant_facts (pystrip x) =
      !(["[]", "\"\"", ""].contains (pystrip x)) := by
  unfold has_relevant_facts
  rw [pystrip_idem]

theorem zip_map_const {α β : Type} (l : List α) (m : β) :
    l.zip (l.map (fun _ => m)) = l.map (fun c => (c, m)) := by
  induction l with
  | nil => rfl
  | cons a as ih => simp only [List.map_cons, List.zip_cons_cons, ih]

theorem get_text_chunks_zip {μ : Type} (split : String → List String)
    (rows : List (String × μ)) :
    (get_text_chunks split rows).1.zip (get_text_chunks split rows).2 =
      rows.flatMap (fun r => (split r.1).map (fun c => (c, r.2))) := by
  induction rows with
  | nil => rfl
  | cons r rest ih =>
    cases r with
    | mk text metadata =>
      simp only [get_text_chunks, List.flatMap_cons]
      rw [List.zip_append (by simp), zip_map_const, ih]

theorem get_text_chunks_length {μ : Type} (split : String → List String)
    (rows : List (String × μ)) :
    (get_text_chunks split rows).1.length =
      (get_text_chunks split rows).2.length := by
  induction rows with
  | nil => rfl
  | cons r rest ih =>
    cases r with
    | mk text metadata => simp [get_text_chunks, ih]

theorem rebuild_vectorstore_rebuilt (fs : FsState) (current_hash : String)
    (read_excel : Except String (List (List (String × String))))
    (split : String → List String)
    (create_vectorstore : List String → List RowMetadata → Except String VS) :
    (rebuild_vectorstore fs current_hash read_excel split
      create_vectorstore).rebuilt = true := by
  cases read_excel with
  | error e => rfl
  | ok rows =>
    simp only [rebuild_vectorstore]
    cases hc : create_vectorstore
        (get_text_chunks split
          (rows.map (fun row => (flatten_row row, row_metadata row)))).1
        (get_text_chunks split
          (rows.map (fun row => (flatten_row row, row_metadata row)))).2 <;>
      simp [hc]

theorem rebuild_vectorstore_error_fs (fs : FsState) (current_hash : String)
    (read_excel : Except String (List (List (String × String))))
    (split : String → List String)
    (create_vectorstore : List String → List RowMetadata → Except String VS)
    (e : String)
    (herr : (rebuild_vectorstore fs current_hash read_excel split
      create_vectorstore).vs = Except.error e) :
    (rebuild_vectorstore fs current_hash read_excel split
      create_vectorstore).fs = fs := by
  cases read_excel with
  | error e2 => rfl
  | ok rows =>
    simp only [rebuild_vectorstore] at herr ⊢
    cases hc : create_vectorstore
        (get_text_chunks split
          (rows.map (fun row => (flatten_row row, row_metadata row)))).1
        (get_text_chunks split
          (rows.map (fun row => (flatten_row row, row_metadata row)))).2 with
    | error e2 => simp [hc]
    | ok v => rw [hc] at herr; simp at herr

theorem load_or_create_error_fs (fs : FsState) (excelBytes : List Nat)
    (read_excel : Except String (List (List (String × String))))
    (split : String → List String)
    (create_vectorstore : List String → List RowMetadata → Except String VS)
    (load_vectorstore : Except String VS) (e : String)
    (herr : (load_or_create_vectorstore fs excelBytes read_excel split
      create_vectorstore load_vectorstore).vs = Except.error e) :
    (load_or_create_vectorstore fs excelBytes read_excel split
      create_vectorstore load_vectorstore).fs = fs := by
  by_cases hcond :
      (!fs.indexExists || fs.storedHash != some (get_excel_hash excelBytes)) = true
  · simp only [load_or_create_vectorstore, if_pos hcond] at herr ⊢
    exact rebuild_vectorstore_error_fs _ _ _ _ _ _ herr
  · simp only [load_or_create_vectorstore, if_neg hcond]

theorem load_or_create_rebuilt (fs : FsState) (excelBytes : List Nat)
    (read_excel : Except String (List (List (String × String))))
    (split : String → List String)
    (create_vectorstore : List String → List RowMetadata → Except String VS)
    (load_vectorstore : Except String VS) :
    (load_or_create_vectorstore fs excelBytes read_excel split
        create_vectorstore load_vectorstore).rebuilt =
      (!fs.indexExists || fs.storedHash != some (get_excel_hash excelBytes)) := by
  unfold load_or_create_vectorstore
  by_cases hcond :
      (!fs.indexExists || fs.storedHash != some (get_excel_hash excelBytes)) = true
  · rw [if_pos hcond, hcond, rebuild_vectorstore_rebuilt]
  · rw [if_neg hcond]
    simp only [Bool.not_eq_true] at hcond
    rw [hcond]

theorem stale_cond_eq_isStale (cur : String) (sh : Option String) (ie : Bool) :
    (!ie || sh != some cur) = isStale cur sh ie := by
  cases sh <;> cases ie <;> rfl

theorem length_flatMap_byteHexChars (bs : List Nat) :
    (bs.flatMap byteHexChars).length = 2 * bs.length := by
  induction bs with
  | nil => rfl
  | cons b rest ih =>
    simp only [List.flatMap_cons, List.length_append, ih, byteHexChars,
      List.length_cons, List.length_nil]
    omega

theorem md5digestBytes_length (msg : List Nat) :
    (md5digestBytes msg).length = 16 := by
  unfold md5digestBytes
  simp [wordLEbytes]

theorem get_excel_hash_length (b : List Nat) :
    (get_excel_hash b).length = 32 := by
  have hmk : ∀ l : List Char, (String.mk l).length = l.length := fun _ => rfl
  unfold get_excel_hash bytesToHex
  rw [hmk, length_flatMap_byteHexChars, md5digestBytes_length]

/-!
## Claims
-/

/-- C1: `load_or_create_vectorstore` takes the rebuild branch exactly
when `isStale` holds of the current fingerprint of the spreadsheet's
bytes, the stored fingerprint, and the presence of the index artifact:
it rebuilds iff the artifact is missing OR the stored fingerprint is
absent or differs; in particular a missing artifact always rebuilds,
whatever the fingerprints. -/
theorem C1_rebuild_iff_stale (fs : FsState) (excelBytes : List Nat)
    (read_excel : Except String (List (List (String × String))))
    (split : String → List String)
    (create_vectorstore : List String → List RowMetadata → Except String VS)
    (load_vectorstore : Except String VS) :
    (load_or_create_vectorstore fs excelBytes read_excel split
        create_vectorstore load_vectorstore).rebuilt =
      isStale (get_excel_hash excelBytes) fs.storedHash fs.indexExists := by
  rw [load_or_create_rebuilt, stale_cond_eq_isStale]

/-- C10: when a rebuild attempt fails (the spreadsheet read or the
embedding/index build raises), the filesystem state — in particular the
stored fingerprint — is left unchanged, so any subsequent run over the
same spreadsheet bytes is still stale and retries the rebuild. -/
theorem C10_failed_rebuild_preserves_fingerprint (fs : FsState)
    (excelBytes : List Nat)
    (read_excel : Except String (List (List (String × String))))
    (split : String → List String)
    (create_vectorstore : List String → List RowMetadata → Except String VS)
    (load_vectorstore : Except String VS) (e : String)
    (hreb : (load_or_create_vectorstore fs excelBytes read_excel split
      create_vectorstore load_vectorstore).rebuilt = true)
    (herr : (load_or_create_vectorstore fs excelBytes read_excel split
      create_vectorstore load_vectorstore).vs = Except.error e) :
    (load_or_create_vectorstore fs excelBytes read_excel split
      create_vectorstore load_vectorstore).fs = fs ∧
    ∀ (read_excel2 : Except String (List (List (String × String))))
      (split2 : String → List String)
      (create_vectorstore2 : List String → List RowMetadata → Except String VS)
      (load_vectorstore2 : Except String VS),
      (load_or_create_vectorstore fs excelBytes read_excel2 split2
        create_vectorstore2 load_vectorstore2).rebuilt = true := by
  have hcond :
      (!fs.indexExists || fs.storedHash != some (get_excel_hash excelBytes)) = true := by
    rw [← load_or_create_rebuilt fs excelBytes read_excel split
      create_vectorstore load_vectorstore]
    exact hreb
  constructor
  · simp only [load_or_create_vectorstore, if_pos hcond] at herr ⊢
    exact rebuild_vectorstore_error_fs _ _ _ _ _ _ herr
  · intro read_excel2 split2 create_vectorstore2 load_vectorstore2
    rw [load_or_create_rebuilt]
    exact hcond

/-- Witness for C10: a failing spreadsheet read over a stale state
leaves the state unchanged, and a rerun still takes the rebuild
branch. -/
theorem C10_failed_rebuild_preserves_fingerprint_witness :
    (load_or_create_vectorstore ⟨false, none⟩ [] (Except.error "io")
      (fun t => [t]) (fun _ _ => Except.ok (fun _ _ => []))
      (Except.ok (fun _ _ => []))).fs = ⟨false, none⟩ ∧
    (load_or_create_vectorstore ⟨false, none⟩ [] (Except.ok [])
      (fun t => [t]) (fun _ _ => Except.ok (fun _ _ => []))
      (Except.ok (fun _ _ => []))).rebuilt = true := by
  have h := C10_failed_rebuild_preserves_fingerprint ⟨false, none⟩ []
    (Except.error "io") (fun t => [t]) (fun _ _ => Except.ok (fun _ _ => []))
    (Except.ok (fun _ _ => [])) "io" rfl rfl
  exact ⟨h.1, h.2 (Except.ok []) (fun t => [t])
    (fun _ _ => Except.ok (fun _ _ => [])) (Except.ok (fun _ _ => []))⟩

/-- C8: `get_excel_hash` is deterministic — identical file bytes yield
the identical fingerprint — and the fingerprint has the fixed length 32
of an MD5 hex digest. -/
theorem C8_hash_deterministic_fixed_length (b1 b2 : List Nat) (h : b1 = b2) :
    get_excel_hash b1 = get_excel_hash b2 ∧ (get_excel_hash b1).length = 32 := by
  subst h
  exact ⟨rfl, get_excel_hash_length b1⟩

/-- Witness for C8 at a concrete two-byte file. -/
theorem C8_hash_deterministic_fixed_length_witness :
    get_excel_hash [104, 105] = get_excel_hash [104, 105] ∧
      (get_excel_hash [104, 105]).length = 32 :=
  C8_hash_deterministic_fixed_length [104, 105] [104, 105] rfl

/-- C4 counterexample: on `" | Acme"` the first part is empty after
trimming, yet `parse_input` returns `(some "", some "Acme")` rather
than the `(None, None)` the claim requires for such inputs. -/
theorem C4_parse_input_counterexample :
    parse_input " | Acme" = (some "", some "Acme") ∧
      parse_input " | Acme" ≠ (none, none) := by
  constructor
  · decide
  · decide

/-- C4 (amended): `parse_input` returns the two trimmed parts whenever
the input splits on `|` into exactly two parts — including parts that
are empty after trimming — and returns `(None, None)` exactly when the
number of `|`-separated parts differs from two (no delimiter, or more
than one).  Emptiness of the parts is checked later by the interface's
falsiness test, not by `parse_input`. -/
theorem C4_parse_input_two_parts (s a b : String) :
    (pysplit (Char.ofNat 124) s = [a, b] →
      parse_input s = (some (pystrip a), some (pystrip b))) ∧
    ((pysplit (Char.ofNat 124) s).length ≠ 2 →
      parse_input s = (none, none)) := by
  constructor
  · intro h
    unfold parse_input
    rw [h]
  · intro h
    unfold parse_input
    cases hs : pysplit (Char.ofNat 124) s with
    | nil => rfl
    | cons x xs =>
      cases xs with
      | nil => rfl
      | cons y ys =>
        cases ys with
        | nil => exact absurd (by rw [hs]; rfl) h
        | cons z zs => rfl

/-- Witness for the amended C4 at one well-formed and one malformed
input. -/
theorem C4_parse_input_two_parts_witness :
    parse_input "Smart Logistics | Acme BV" =
        (some "Smart Logistics", some "Acme BV") ∧
      parse_input "JustOneField" = (none, none) := by
  constructor
  · have h := (C4_parse_input_two_parts "Smart Logistics | Acme BV"
      "Smart Logistics " " Acme BV").1 (by decide)
    rw [h]
    decide
  · exact (C4_parse_input_two_parts "JustOneField" "" "").2 (by decide)

/-- C2: when every per-document call succeeds, `extract_relevant_info`
keeps a document in `used_sources` iff its response, after trimming, is
none of the sentinels `"[]"`, `'""'`, `""`; `used_sources` keeps the
original document order, and `combined_text` is the newline-join of
exactly those documents' trimmed responses, in the same order.  (The
third component records one extraction prompt per document.) -/
theorem C2_extract_relevant_info_characterization (docs : List Doc)
    (question : String) (f : List Message → String) :
    extract_relevant_info docs question (fun m => Except.ok (f m)) =
      ((docs.filter (fun d =>
          !(["[]", "\"\"", ""].contains
            (pystrip (f (extraction_messages question d)))))).map
        (fun d => ⟨d.title.getD "No title", d.url.getD "No URL",
          pystrip (f (extraction_messages question d))⟩),
       String.intercalate "\n"
         ((docs.filter (fun d =>
            !(["[]", "\"\"", ""].contains
              (pystrip (f (extraction_messages question d)))))).map
           (fun d => pystrip (f (extraction_messages question d)))),
       docs.map (extraction_messages question)) := by
  have hcong : docs.filter ((fun info : FactRecord =>
      has_relevant_facts info.extracted_facts) ∘ (fun d : Doc =>
        ⟨d.title.getD "No title", d.url.getD "No URL",
          pystrip (f (extraction_messages question d))⟩)) =
    docs.filter (fun d =>
      !(["[]", "\"\"", ""].contains
        (pystrip (f (extraction_messages question d))))) := by
    apply List.filter_congr
    intro d _
    exact has_relevant_facts_pystrip _
  simp only [extract_relevant_info]
  rw [extraction_records_ok, List.filter_map, hcong, List.map_map]
  rfl

/-- C6: if the extraction call for one document raises, that document
is skipped — it contributes to neither `used_sources` nor
`combined_text` — and every remaining document is still processed: the
outputs equal those for the document list without it. -/
theorem C6_extraction_failure_skips_document (docs1 docs2 : List Doc) (d : Doc)
    (question : String) (chat_model : ChatModel) (e : String)
    (hfail : chat_model (extraction_messages question d) = Except.error e) :
    (extract_relevant_info (docs1 ++ d :: docs2) question chat_model).1 =
        (extract_relevant_info (docs1 ++ docs2) question chat_model).1 ∧
      (extract_relevant_info (docs1 ++ d :: docs2) question chat_model).2.1 =
        (extract_relevant_info (docs1 ++ docs2) question chat_model).2.1 := by
  have hrec : extraction_records (docs1 ++ d :: docs2) question chat_model =
      extraction_records (docs1 ++ docs2) question chat_model := by
    rw [extraction_records_append, extraction_records_append]
    congr 1
    simp only [extraction_records, hfail]
  refine ⟨?_, ?_⟩ <;> simp only [extract_relevant_info, hrec]

/-- Witness for C6: a single failing document between two empty
batches yields the same outputs as no document at all. -/
theorem C6_extraction_failure_skips_document_witness :
    (extract_relevant_info ([] ++ demo_doc :: []) "Q"
        (fun _ => Except.error "network")).1 =
      (extract_relevant_info ([] ++ []) "Q"
        (fun _ => Except.error "network")).1 ∧
    (extract_relevant_info ([] ++ demo_doc :: []) "Q"
        (fun _ => Except.error "network")).2.1 =
      (extract_relevant_info ([] ++ []) "Q"
        (fun _ => Except.error "network")).2.1 :=
  C6_extraction_failure_skips_document [] [] demo_doc "Q"
    (fun _ => Except.error "network") "network" rfl

/-- C7: the chunk and metadata output lists of `get_text_chunks` are
parallel, and every (chunk, metadata) pair carries, unchanged, the
metadata of a source row that the chunk was split from. -/
theorem C7_chunk_metadata_provenance {μ : Type} (split : String → List String)
    (rows : List (String × μ)) :
    (get_text_chunks split rows).1.length =
        (get_text_chunks split rows).2.length ∧
      ∀ p ∈ (get_text_chunks split rows).1.zip (get_text_chunks split rows).2,
        ∃ j, ∃ hj : j < rows.length,
          p.1 ∈ split (rows.get ⟨j, hj⟩).1 ∧ p.2 = (rows.get ⟨j, hj⟩).2 := by
  refine ⟨get_text_chunks_length split rows, ?_⟩
  intro p hp
  rw [get_text_chunks_zip, List.mem_flatMap] at hp
  obtain ⟨r, hr, hpr⟩ := hp
  rw [List.mem_map] at hpr
  obtain ⟨c, hc, hceq⟩ := hpr
  obtain ⟨⟨j, hj⟩, hget⟩ := List.mem_iff_get.mp hr
  subst hceq
  exact ⟨j, hj, by rw [hget]; exact hc, by rw [hget]⟩

/-- Witness for C7 on a one-row table with an identity splitter. -/
theorem C7_chunk_metadata_provenance_witness :
    (get_text_chunks (fun t => [t]) [("rowtext", 7)]).1.length =
        (get_text_chunks (fun t => [t]) [("rowtext", 7)]).2.length ∧
      ∃ j, ∃ hj : j < ([("rowtext", 7)] : List (String × Nat)).length,
        ("rowtext", 7).1 ∈ (fun t => [t])
            (([("rowtext", 7)] : List (String × Nat)).get ⟨j, hj⟩).1 ∧
          ("rowtext", 7).2 =
            (([("rowtext", 7)] : List (String × Nat)).get ⟨j, hj⟩).2 := by
  have h := C7_chunk_metadata_provenance (fun t => [t])
    ([("rowtext", 7)] : List (String × Nat))
  exact ⟨h.1, h.2 ("rowtext", 7) (by decide)⟩

/-- C3: the orchestrator searches with fixed top-k 6 and keeps only
results whose trimmed, lowercased title equals the trimmed, lowercased
challenge name; when none survives, it returns the no-exact-match
message naming the challenge and issues no chat call at all (neither
extraction nor generation). -/
theorem C3_no_exact_match_short_circuit (challenge_name company_name : String)
    (vs : VS) (chat_model : ChatModel)
    (hempty : (vs challenge_name 6).filter (title_matches challenge_name) = []) :
    generate_cold_email challenge_name company_name vs chat_model =
      (Except.ok (no_match_message challenge_name), []) := by
  simp only [generate_cold_email, hempty]
  rfl

/-- Witness for C3: an index with no matching title short-circuits on
`"Unknown Challenge | Acme BV"`. -/
theorem C3_no_exact_match_short_circuit_witness :
    generate_cold_email "Unknown Challenge" "Acme BV" (fun _ _ => [])
        (fun _ => Except.ok "reply") =
      (Except.ok (no_match_message "Unknown Challenge"), []) :=
  C3_no_exact_match_short_circuit "Unknown Challenge" "Acme BV" (fun _ _ => [])
    (fun _ => Except.ok "reply") rfl

/-- C5: when extraction over the (nonempty) filtered candidates yields
a combined text that is empty after trimming, the orchestrator returns
the generic no-useful-facts message and the calls issued are exactly
the extraction prompts — none of them is a generation call, so the
generation stage is never reached. -/
theorem C5_no_generation_call_on_empty_facts (challenge_name company_name : String)
    (vs : VS) (chat_model : ChatModel)
    (hne : (vs challenge_name 6).filter (title_matches challenge_name) ≠ [])
    (hempty : pystrip (extract_relevant_info
        ((vs challenge_name 6).filter (title_matches challenge_name))
        challenge_name chat_model).2.1 = "") :
    generate_cold_email challenge_name company_name vs chat_model =
      (Except.ok no_facts_message,
        ((vs challenge_name 6).filter (title_matches challenge_name)).map
          (extraction_messages challenge_name)) ∧
    ((((vs challenge_name 6).filter (title_matches challenge_name)).map
        (extraction_messages challenge_name)).all
      (fun m => !(is_generation_call m))) = true := by
  have hie : ((vs challenge_name 6).filter
      (title_matches challenge_name)).isEmpty = false := by
    cases hx : (vs challenge_name 6).filter (title_matches challenge_name) with
    | nil => exact absurd hx hne
    | cons a as => rfl
  constructor
  · simp only [generate_cold_email, extract_relevant_info] at hempty ⊢
    simp [hie, hempty]
  · rw [List.all_eq_true]
    intro m hm
    rw [List.mem_map] at hm
    obtain ⟨d, hd, hmd⟩ := hm
    subst hmd
    rfl

/-- Witness for C5: a matching document whose extraction yields the
empty string leads to the no-useful-facts short circuit with one
extraction call and no generation call. -/
theorem C5_no_generation_call_on_empty_facts_witness :
    generate_cold_email "X" "Acme" demo_vs (fun _ => Except.ok "") =
      (Except.ok no_facts_message,
        ((demo_vs "X" 6).filter (title_matches "X")).map
          (extraction_messages "X")) ∧
    ((((demo_vs "X" 6).filter (title_matches "X")).map
        (extraction_messages "X")).all
      (fun m => !(is_generation_call m))) = true :=
  C5_no_generation_call_on_empty_facts "X" "Acme" demo_vs
    (fun _ => Except.ok "") (by decide) (by decide)

/-- C9: a raising embedding/build call during index resolution, and a
raising chat-completion call in the generation stage, are both fatal:
the exception propagates (no partial email string is produced on that
path) and the boundary in `interface.main` converts it into the
corresponding user-visible error message.  Stated in three parts:
(1) a failing index load-or-rebuild makes `main_run` show the loading
error message and leaves the filesystem state unchanged; (2) a failing
generation call makes `generate_cold_email` propagate the exception
instead of returning a string; (3) `main_run` then shows the generation
error message. -/
theorem C9_fatal_failures_surfaced :
    (∀ (user_input : String) (fs : FsState) (excelBytes : List Nat)
       (read_excel : Except String (List (List (String × String))))
       (split : String → List String)
       (create_vectorstore : List String → List RowMetadata → Except String VS)
       (load_vectorstore : Except String VS) (chat_model : ChatModel)
       (c k e : String),
       parse_input user_input = (some c, some k) → c ≠ "" → k ≠ "" →
       (load_or_create_vectorstore fs excelBytes read_excel split
         create_vectorstore load_vectorstore).vs = Except.error e →
       main_run user_input fs excelBytes read_excel split create_vectorstore
         load_vectorstore chat_model =
         (UiOutcome.errorMsg (loading_error_message e), fs)) ∧
    (∀ (challenge_name company_name : String) (vs : VS)
       (chat_model : ChatModel) (e : String),
       (vs challenge_name 6).filter (title_matches challenge_name) ≠ [] →
       pystrip (extract_relevant_info
         ((vs challenge_name 6).filter (title_matches challenge_name))
         challenge_name chat_model).2.1 ≠ "" →
       chat_model (email_prompt (extract_relevant_info
           ((vs challenge_name 6).filter (title_matches challenge_name))
           challenge_name chat_model).2.1 company_name) = Except.error e →
       (generate_cold_email challenge_name company_name vs chat_model).1 =
         Except.error e) ∧
    (∀ (user_input : String) (fs : FsState) (excelBytes : List Nat)
       (read_excel : Except String (List (List (String × String))))
       (split : String → List String)
       (create_vectorstore : List String → List RowMetadata → Except String VS)
       (load_vectorstore : Except String VS) (chat_model : ChatModel)
       (vectorstore : VS) (c k e : String),
       parse_input user_input = (some c, some k) → c ≠ "" → k ≠ "" →
       (load_or_create_vectorstore fs excelBytes read_excel split
         create_vectorstore load_vectorstore).vs = Except.ok vectorstore →
       (generate_cold_email c k vectorstore chat_model).1 = Except.error e →
       main_run user_input fs excelBytes read_excel split create_vectorstore
         load_vectorstore chat_model =
         (UiOutcome.errorMsg (generation_error_message e),
          (load_or_create_vectorstore fs excelBytes read_excel split
            create_vectorstore load_vectorstore).fs)) := by
  refine ⟨?_, ?_, ?_⟩
  · intro user_input fs excelBytes read_excel split create_vectorstore
      load_vectorstore chat_model c k e h1 h2 h3 h4
    have hc : (c == "") = false := beq_eq_false_iff_ne.mpr h2
    have hk : (k == "") = false := beq_eq_false_iff_ne.mpr h3
    have hfs := load_or_create_error_fs fs excelBytes read_excel split
      create_vectorstore load_vectorstore e h4
    simp only [main_run, h1, py_falsy, hc, hk, Bool.or_self, h4, hfs,
      Bool.false_eq_true, if_false]
  · intro challenge_name company_name vs chat_model e hne hfacts hgen
    have hie : ((vs challenge_name 6).filter
        (title_matches challenge_name)).isEmpty = false := by
      cases hx : (vs challenge_name 6).filter (title_matches challenge_name) with
      | nil => exact absurd hx hne
      | cons a as => rfl
    have hfb : (pystrip (extract_relevant_info
        ((vs challenge_name 6).filter (title_matches challenge_name))
        challenge_name chat_model).2.1 == "") = false :=
      beq_eq_false_iff_ne.mpr hfacts
    simp only [generate_cold_email, hie, hfb, Bool.false_eq_true, if_false, hgen]
  · intro user_input fs excelBytes read_excel split create_vectorstore
      load_vectorstore chat_model vectorstore c k e h1 h2 h3 h4 h5
    have hc : (c == "") = false := beq_eq_false_iff_ne.mpr h2
    have hk : (k == "") = false := beq_eq_false_iff_ne.mpr h3
    simp only [main_run, h1, py_falsy, hc, hk, Bool.or_self, h4,
      Option.getD_some, h5, Bool.false_eq_true, if_false]

/-- Witness for C9: a failing spreadsheet read surfaces the loading
error message; a chat model that raises on the generation prompt makes
`generate_cold_email` propagate the exception and `main_run` surface
the generation error message. -/
theorem C9_fatal_failures_surfaced_witness :
    main_run "A|B" ⟨false, none⟩ [] (Except.error "io") (fun t => [t])
        (fun _ _ => Except.ok demo_vs) (Except.ok demo_vs) gen_fail_chat =
      (UiOutcome.errorMsg (loading_error_message "io"), ⟨false, none⟩) ∧
    (generate_cold_email "X" "Acme" demo_vs gen_fail_chat).1 =
        Except.error "boom" ∧
    main_run "X|Acme" ⟨false, none⟩ [] (Except.ok []) (fun t => [t])
        (fun _ _ => Except.ok demo_vs) (Except.ok demo_vs) gen_fail_chat =
      (UiOutcome.errorMsg (generation_error_message "boom"),
       (load_or_create_vectorstore ⟨false, none⟩ [] (Except.ok [])
         (fun t => [t]) (fun _ _ => Except.ok demo_vs)
         (Except.ok demo_vs)).fs) :=
  ⟨C9_fatal_failures_surfaced.1 "A|B" ⟨false, none⟩ [] (Except.error "io")
      (fun t => [t]) (fun _ _ => Except.ok demo_vs) (Except.ok demo_vs)
      gen_fail_chat "A" "B" "io" (by decide) (by decide) (by decide) rfl,
   C9_fatal_failures_surfaced.2.1 "X" "Acme" demo_vs gen_fail_chat "boom"
      (by decide) (by decide) rfl,
   C9_fatal_failures_surfaced.2.2 "X|Acme" ⟨false, none⟩ [] (Except.ok [])
      (fun t => [t]) (fun _ _ => Except.ok demo_vs) (Except.ok demo_vs)
      gen_fail_chat demo_vs "X" "Acme" "boom" (by decide) (by decide)
      (by decide) rfl rfl⟩
